import Mathlib

/-!
Verification of the codoscope viewer core (`src/viewer.py`).

The repository's single source file defines `CodeViewer`, a single-threaded
event-driven application: seven pipeline-stage panels, per-stage visibility
flags, a grid-column computation, key bindings dispatching toggle actions,
a `set_code` pipeline refresh, an editor overlay callback, and a hover
handler that broadcasts a line highlight to the stage panels.

The embedding below is a state machine: `ViewerState` carries the reactive
visibility flags, the grid column count, the editor screen's text, the log of
`set_code` invocations and one `Panel` record per stage.  Events (key press,
hover, editor dismissal) are interpreted by `step`, mirroring the Python
control flow.  The per-stage widget classes (`source_widget.py`,
`token_widget.py`, `ast_widget.py`, `bytecode_widget.py`, `editor.py`) are not
part of the repository snapshot, so their `set_code`/`highlight` effects are
modelled from the spec where indicated.
-/

namespace Codoscope

/-- The seven pipeline stages of `viewer.py`, in the fixed topological order
Source, Tokens, AST, OptimizedAST, PseudoBytecode, OptimizedPseudoBytecode,
FinalBytecode (the widgets with ids `source`, `tokens`, `ast`, `opt-ast`,
`pseudo-bc`, `opt-pseudo-bc`, `opt-code-obj`). -/
inductive StageKind where
  | source
  | tokens
  | ast
  | optAst
  | pseudoBc
  | optPseudoBc
  | codeObj
  deriving DecidableEq, Repr

/-- Position of a stage in the fixed pipeline order. -/
def StageKind.idx : StageKind → Nat
  | .source => 0
  | .tokens => 1
  | .ast => 2
  | .optAst => 3
  | .pseudoBc => 4
  | .optPseudoBc => 5
  | .codeObj => 6

/-- All seven stage kinds, in pipeline order. -/
def allStages : List StageKind :=
  [.source, .tokens, .ast, .optAst, .pseudoBc, .optPseudoBc, .codeObj]

/-- Observable state of one stage widget: the source revision its artifact was
computed from, the staleness flag, and its current highlight (the last line it
was asked to highlight, if any). -/
structure Panel where
  content : String
  stale : Bool
  highlight : Option Nat
  deriving DecidableEq, Repr

/-- One `Panel` per stage kind. -/
structure Panels where
  source : Panel
  tokens : Panel
  ast : Panel
  optAst : Panel
  pseudoBc : Panel
  optPseudoBc : Panel
  codeObj : Panel
  deriving DecidableEq, Repr

def Panels.get (ps : Panels) : StageKind → Panel
  | .source => ps.source
  | .tokens => ps.tokens
  | .ast => ps.ast
  | .optAst => ps.optAst
  | .pseudoBc => ps.pseudoBc
  | .optPseudoBc => ps.optPseudoBc
  | .codeObj => ps.codeObj

def Panels.set (ps : Panels) : StageKind → Panel → Panels
  | .source, p => { ps with source := p }
  | .tokens, p => { ps with tokens := p }
  | .ast, p => { ps with ast := p }
  | .optAst, p => { ps with optAst := p }
  | .pseudoBc, p => { ps with pseudoBc := p }
  | .optPseudoBc, p => { ps with optPseudoBc := p }
  | .codeObj, p => { ps with codeObj := p }

/-- State of the `CodeViewer` app: the seven reactive visibility vars
(`show_source` .. `show_code_obj`, `viewer.py` lines 57-63), the `#body`
grid's `grid_size_columns` style, the editor screen's current text, the log of
arguments passed to `CodeViewer.set_code` (most recent first), and the stage
panels. -/
structure ViewerState where
  show_source : Bool
  show_tokens : Bool
  show_ast : Bool
  show_opt_ast : Bool
  show_pseudo_bc : Bool
  show_opt_pseudo_bc : Bool
  show_code_obj : Bool
  grid_size_columns : Nat
  editor_text : String
  set_code_calls : List String
  panels : Panels
  deriving DecidableEq, Repr

/-- The visibility flag for a stage kind. -/
def stage_visible (st : ViewerState) : StageKind → Bool
  | .source => st.show_source
  | .tokens => st.show_tokens
  | .ast => st.show_ast
  | .optAst => st.show_opt_ast
  | .pseudoBc => st.show_pseudo_bc
  | .optPseudoBc => st.show_opt_pseudo_bc
  | .codeObj => st.show_code_obj

/-- The seven visibility flags as a tuple-like list, for stating that an event
leaves all of them unchanged. -/
def vis_flags (st : ViewerState) : List Bool :=
  [st.show_source, st.show_tokens, st.show_ast, st.show_opt_ast,
   st.show_pseudo_bc, st.show_opt_pseudo_bc, st.show_code_obj]

/-- Number of visible stages, stated in the spec's words: the count of
StageKinds whose visibility flag is true. -/
def visible_count (st : ViewerState) : Nat :=
  (allStages.filter (fun k => stage_visible st k)).length

/-- `CodeViewer.update_visibility` (`viewer.py` lines 65-76): recompute the
`#body` grid's column count as the (Python boolean) sum of the seven `show_*`
flags capped at 3.  The CSS display change of the toggled panel is part of the
rendering layer; the state-visible effect is the column count. -/
def update_visibility (st : ViewerState) : ViewerState :=
  let visible_panels :=
    st.show_source.toNat + st.show_tokens.toNat + st.show_ast.toNat +
    st.show_opt_ast.toNat + st.show_pseudo_bc.toNat +
    st.show_opt_pseudo_bc.toNat + st.show_code_obj.toNat
  { st with grid_size_columns := min visible_panels 3 }

/-- `CodeViewer.BINDINGS` (`viewer.py` lines 35-55): key-to-action bindings.
A binding's comma-separated key string (`"q,escape"`) binds each listed key,
so keys are given here as lists.  Under the full toolchain (`VERSION_3_13`
true) all nine bindings exist; under the reduced toolchain keys 4, 5 and 6
are absent. -/
def BINDINGS (v : Bool) : List (List String × String) :=
  if v then
    [(["q", "escape"], "quit"), (["e"], "open_editor"),
     (["1"], "toggle_source"), (["2"], "toggle_tokens"),
     (["3"], "toggle_ast"), (["4"], "toggle_opt_ast"),
     (["5"], "toggle_pseudo_bc"), (["6"], "toggle_opt_pseudo_bc"),
     (["7"], "toggle_code_obj")]
  else
    [(["q", "escape"], "quit"), (["e"], "open_editor"),
     (["1"], "toggle_source"), (["2"], "toggle_tokens"),
     (["3"], "toggle_ast"), (["7"], "toggle_code_obj")]

/-- Key dispatch: the action bound to a pressed key, if any. -/
def key_action (v : Bool) (key : String) : Option String :=
  ((BINDINGS v).find? (fun b => b.1.contains key)).map (fun b => b.2)

/-- `CodeViewer.action_toggle_source` (`viewer.py` lines 140-141): flip the
flag; the reactive watcher `watch_show_source` then runs `update_visibility`. -/
def action_toggle_source (st : ViewerState) : ViewerState :=
  update_visibility { st with show_source := !st.show_source }

/-- `CodeViewer.action_toggle_tokens` (`viewer.py` lines 143-144). -/
def action_toggle_tokens (st : ViewerState) : ViewerState :=
  update_visibility { st with show_tokens := !st.show_tokens }

/-- `CodeViewer.action_toggle_ast` (`viewer.py` lines 146-147). -/
def action_toggle_ast (st : ViewerState) : ViewerState :=
  update_visibility { st with show_ast := !st.show_ast }

/-- `CodeViewer.action_toggle_opt_ast` (`viewer.py` lines 149-150): the
watcher `watch_show_opt_ast` exists only under `VERSION_3_13` (lines 87-90),
so `update_visibility` runs only then. -/
def action_toggle_opt_ast (v : Bool) (st : ViewerState) : ViewerState :=
  let st1 := { st with show_opt_ast := !st.show_opt_ast }
  if v then update_visibility st1 else st1

/-- `CodeViewer.action_toggle_pseudo_bc` (`viewer.py` lines 152-153). -/
def action_toggle_pseudo_bc (v : Bool) (st : ViewerState) : ViewerState :=
  let st1 := { st with show_pseudo_bc := !st.show_pseudo_bc }
  if v then update_visibility st1 else st1

/-- `CodeViewer.action_toggle_opt_pseudo_bc` (`viewer.py` lines 155-156). -/
def action_toggle_opt_pseudo_bc (v : Bool) (st : ViewerState) : ViewerState :=
  let st1 := { st with show_opt_pseudo_bc := !st.show_opt_pseudo_bc }
  if v then update_visibility st1 else st1

/-- `CodeViewer.action_toggle_code_obj` (`viewer.py` lines 158-159). -/
def action_toggle_code_obj (st : ViewerState) : ViewerState :=
  update_visibility { st with show_code_obj := !st.show_code_obj }

/-- Modelled from the spec: the ToolchainAdapter (the widgets call the real
toolchain, whose modules are outside this repository).  A source text either
compiles through every stage (`none`) or fails first at one stage (`some f`);
stages strictly before the failing stage succeed, the failing stage and every
later stage cannot produce an artifact (`CompilationFailed`, spec section
4.2). -/
def stage_succeeds (firstFail : String → Option StageKind) (code : String)
    (k : StageKind) : Bool :=
  match firstFail code with
  | none => true
  | some f => k.idx < f.idx

/-- Modelled from the spec: the per-stage widget `set_code` (the widget
modules `source_widget.py`, `token_widget.py`, `ast_widget.py`,
`bytecode_widget.py` are not in the repository snapshot).  On success the
stage's artifact is recreated wholesale from the new source and carries no
highlight; on failure the prior artifact is retained untouched and flagged
stale (spec sections 4.3 and 7). -/
def widget_set_code (firstFail : String → Option StageKind) (code : String)
    (k : StageKind) (p : Panel) : Panel :=
  if stage_succeeds firstFail code k then
    { content := code, stale := false, highlight := none }
  else
    { p with stale := true }

/-- Modelled from the spec: the per-stage widget `highlight(line)` (widget
modules absent from the snapshot) recomputes the panel's highlight for the
selected line from its PositionIndex, a pure function of the line, replacing
whatever highlight was there before (last-hover-wins, spec section 4.5). -/
def widget_highlight (lineno : Nat) (p : Panel) : Panel :=
  { p with highlight := some lineno }

/-- The stage widgets created by `CodeViewer.compose` (`viewer.py` lines
101-122): under `VERSION_3_13` all seven panels, otherwise the `opt-ast`,
`pseudo-bc` and `opt-pseudo-bc` panels are not created. -/
def compose (v : Bool) : List StageKind :=
  [.source, .tokens, .ast] ++
    (if v then [.optAst, .pseudoBc, .optPseudoBc] else []) ++ [.codeObj]

/-- The sequence of widgets whose `set_code` is invoked by
`CodeViewer.set_code` (`viewer.py` lines 124-134), in call order. -/
def set_code_targets (v : Bool) : List StageKind :=
  [.source, .tokens, .ast] ++
    (if v then [.optAst, .pseudoBc, .optPseudoBc] else []) ++ [.codeObj]

/-- The sequence of widgets whose `highlight` is invoked by
`CodeViewer.on_hover_line` (`viewer.py` lines 168-184), in call order. -/
def hover_targets (v : Bool) : List StageKind :=
  [.source, .tokens, .ast] ++
    (if v then [.optAst, .pseudoBc, .optPseudoBc] else []) ++ [.codeObj]

/-- `CodeViewer.set_code` (`viewer.py` lines 124-134): push the new code into
the editor screen, then call `set_code` on the source, tokens and AST widgets,
on the three optimized/pseudo widgets when `VERSION_3_13`, and on the final
bytecode widget.  The call is also recorded in the invocation log. -/
def set_code (v : Bool) (firstFail : String → Option StageKind)
    (code : String) (st : ViewerState) : ViewerState :=
  let ps := st.panels
  let ps := ps.set .source (widget_set_code firstFail code .source (ps.get .source))
  let ps := ps.set .tokens (widget_set_code firstFail code .tokens (ps.get .tokens))
  let ps := ps.set .ast (widget_set_code firstFail code .ast (ps.get .ast))
  let ps :=
    if v then
      let ps := ps.set .optAst (widget_set_code firstFail code .optAst (ps.get .optAst))
      let ps := ps.set .pseudoBc (widget_set_code firstFail code .pseudoBc (ps.get .pseudoBc))
      ps.set .optPseudoBc (widget_set_code firstFail code .optPseudoBc (ps.get .optPseudoBc))
    else ps
  let ps := ps.set .codeObj (widget_set_code firstFail code .codeObj (ps.get .codeObj))
  { st with
    editor_text := code
    set_code_calls := code :: st.set_code_calls
    panels := ps }

/-- `CodeViewer.on_hover_line` (`viewer.py` lines 168-184): call `highlight`
on the source, tokens and AST widgets, on the three optimized/pseudo widgets
when `VERSION_3_13`, and on the final bytecode widget — unconditionally, with
no check of the `show_*` visibility flags. -/
def on_hover_line (v : Bool) (lineno : Nat) (st : ViewerState) : ViewerState :=
  let ps := st.panels
  let ps := ps.set .source (widget_highlight lineno (ps.get .source))
  let ps := ps.set .tokens (widget_highlight lineno (ps.get .tokens))
  let ps := ps.set .ast (widget_highlight lineno (ps.get .ast))
  let ps :=
    if v then
      let ps := ps.set .optAst (widget_highlight lineno (ps.get .optAst))
      let ps := ps.set .pseudoBc (widget_highlight lineno (ps.get .pseudoBc))
      ps.set .optPseudoBc (widget_highlight lineno (ps.get .optPseudoBc))
    else ps
  let ps := ps.set .codeObj (widget_highlight lineno (ps.get .codeObj))
  { st with panels := ps }

/-- The callback `update_code` inside `CodeViewer.action_open_editor`
(`viewer.py` lines 161-166): when the editor screen is dismissed with a
string, pass it to `set_code`; when dismissed with `None`, do nothing. -/
def update_code (v : Bool) (firstFail : String → Option StageKind)
    (code : Option String) (st : ViewerState) : ViewerState :=
  match code with
  | some c => set_code v firstFail c st
  | none => st

/-- The named actions of `CodeViewer`, dispatched by name.  `quit` ends the
process and `open_editor` pushes the modal editor screen; neither changes the
viewer state modelled here (the editor's dismissal arrives later as its own
event). -/
def run_action (v : Bool) (a : String) (st : ViewerState) : ViewerState :=
  if a = "quit" then st
  else if a = "open_editor" then st
  else if a = "toggle_source" then action_toggle_source st
  else if a = "toggle_tokens" then action_toggle_tokens st
  else if a = "toggle_ast" then action_toggle_ast st
  else if a = "toggle_opt_ast" then action_toggle_opt_ast v st
  else if a = "toggle_pseudo_bc" then action_toggle_pseudo_bc v st
  else if a = "toggle_opt_pseudo_bc" then action_toggle_opt_pseudo_bc v st
  else if a = "toggle_code_obj" then action_toggle_code_obj st
  else st

/-- External events driving the single-threaded app: a key press, a hover on
a source line (the `HoverLine` message), and the dismissal of the editor
overlay with either an updated source string or no change. -/
inductive Event where
  | key : String → Event
  | hover : Nat → Event
  | editorResult : Option String → Event

/-- One step of the event loop. -/
def step (v : Bool) (firstFail : String → Option StageKind) (e : Event)
    (st : ViewerState) : ViewerState :=
  match e with
  | .key k =>
    match key_action v k with
    | some a => run_action v a st
    | none => st
  | .hover line => on_hover_line v line st
  | .editorResult r => update_code v firstFail r st

/-- An empty panel, before any `set_code`. -/
def initial_panel : Panel := { content := "", stale := false, highlight := none }

/-- The app state as constructed (`viewer.py` lines 57-63): `show_source` and
`show_code_obj` default to `True`, the five other flags to `False`.  The
reactive vars initialize their watchers at mount, so the grid column count is
already `min(2, 3) = 2`. -/
def pre_mount_state : ViewerState :=
  { show_source := true
    show_tokens := false
    show_ast := false
    show_opt_ast := false
    show_pseudo_bc := false
    show_opt_pseudo_bc := false
    show_code_obj := true
    grid_size_columns := 2
    editor_text := ""
    set_code_calls := []
    panels :=
      ⟨initial_panel, initial_panel, initial_panel, initial_panel,
       initial_panel, initial_panel, initial_panel⟩ }

/-- `CodeViewer.on_mount` (`viewer.py` lines 136-138): load the startup code
through `set_code` (the focus call is pure rendering). -/
def on_mount (v : Bool) (firstFail : String → Option StageKind)
    (startup : String) (st : ViewerState) : ViewerState :=
  set_code v firstFail startup st

/-- The state right after startup. -/
def init_state (v : Bool) (firstFail : String → Option StageKind)
    (startup : String) : ViewerState :=
  on_mount v firstFail startup pre_mount_state

/-- Run a sequence of events from the startup state. -/
def run_events (v : Bool) (firstFail : String → Option StageKind)
    (startup : String) (evs : List Event) : ViewerState :=
  evs.foldl (fun st e => step v firstFail e st) (init_state v firstFail startup)

/-- The names of the seven toggle actions. -/
def toggle_actions : List String :=
  ["toggle_source", "toggle_tokens", "toggle_ast", "toggle_opt_ast",
   "toggle_pseudo_bc", "toggle_opt_pseudo_bc", "toggle_code_obj"]

/-- An event is a toggle event when it is a key press bound to one of the
seven toggle actions. -/
def is_toggle_event (v : Bool) : Event → Bool
  | .key k =>
    match key_action v k with
    | some a => toggle_actions.contains a
    | none => false
  | _ => false

/-- A concrete toolchain oracle used to exercise the model: the text "bad"
fails first at the AST stage, every other text compiles through all stages. -/
def demoFail : String → Option StageKind :=
  fun s => if s = "bad" then some .ast else none

/-! ## Helper lemmas -/

/-- The panel of stage `k` after `on_hover_line`: every stage that
`on_hover_line` touches gets its highlight recomputed for the hovered line;
panels outside the touched set are unchanged. -/
lemma on_hover_panel (v : Bool) (lineno : Nat) (st : ViewerState)
    (k : StageKind) :
    (on_hover_line v lineno st).panels.get k =
      if k ∈ hover_targets v then widget_highlight lineno (st.panels.get k)
      else st.panels.get k := by
  cases v <;> cases k <;>
    simp [on_hover_line, hover_targets, Panels.get, Panels.set]

/-- The panel of stage `k` after `CodeViewer.set_code`: every widget in the
call sequence gets `widget_set_code`, the others are unchanged. -/
lemma set_code_panel (v : Bool) (firstFail : String → Option StageKind)
    (code : String) (st : ViewerState) (k : StageKind) :
    (set_code v firstFail code st).panels.get k =
      if k ∈ set_code_targets v then
        widget_set_code firstFail code k (st.panels.get k)
      else st.panels.get k := by
  cases v <;> cases k <;>
    simp [set_code, set_code_targets, Panels.get, Panels.set]

/-- `on_hover_line` does not touch the visibility flags. -/
lemma vis_flags_on_hover (v : Bool) (lineno : Nat) (st : ViewerState) :
    vis_flags (on_hover_line v lineno st) = vis_flags st := by
  cases v <;> rfl

/-- `set_code` does not touch the visibility flags. -/
lemma vis_flags_set_code (v : Bool) (firstFail : String → Option StageKind)
    (code : String) (st : ViewerState) :
    vis_flags (set_code v firstFail code st) = vis_flags st := rfl

/-- A dispatched action that is not one of the seven toggles leaves the
visibility flags unchanged. -/
lemma run_action_nontoggle (v : Bool) (a : String) (st : ViewerState)
    (h : toggle_actions.contains a = false) :
    vis_flags (run_action v a st) = vis_flags st := by
  unfold run_action
  split_ifs <;> first
    | rfl
    | (subst_vars; exact absurd h (by decide))

/-- `run_action` never touches the editor text or the `set_code` log. -/
lemma run_action_editor (v : Bool) (a : String) (st : ViewerState) :
    (run_action v a st).editor_text = st.editor_text ∧
    (run_action v a st).set_code_calls = st.set_code_calls := by
  unfold run_action
  split_ifs <;> first
    | exact ⟨rfl, rfl⟩
    | (cases v <;> exact ⟨rfl, rfl⟩)

/-- A step preserves the editor-synchronization invariant: the editor
screen's text is the argument of the most recent `set_code` call. -/
lemma step_preserves_sync (v : Bool) (firstFail : String → Option StageKind)
    (e : Event) (st : ViewerState)
    (h : st.set_code_calls.head? = some st.editor_text) :
    (step v firstFail e st).set_code_calls.head? =
      some (step v firstFail e st).editor_text := by
  cases e with
  | key k =>
    rcases hk : key_action v k with _ | a
    · simp only [step, hk]
      exact h
    · have ha := run_action_editor v a st
      simp only [step, hk, ha.1, ha.2]
      exact h
  | hover line =>
    simp only [step]
    cases v <;> exact h
  | editorResult r =>
    cases r with
    | none => exact h
    | some c => rfl

/-! ## Claims -/

/-- C1, counterexample: in the startup state the Tokens stage is hidden
(`show_tokens = false`), its panel holds no highlight, and yet hovering line 3
updates the Tokens panel's highlight to line 3 — the hidden panel does receive
(and processes) the highlight instruction, contrary to the claim that hidden
panels receive none. -/
theorem highlight_hidden_panel_counterexample :
    stage_visible (init_state true demoFail "x = 1") .tokens = false ∧
    ((init_state true demoFail "x = 1").panels.get .tokens).highlight = none ∧
    ((on_hover_line true 3 (init_state true demoFail "x = 1")).panels.get
        .tokens).highlight = some 3 := by
  refine ⟨rfl, rfl, rfl⟩

/-- C1, amended: when a line is hovered, `on_hover_line` issues the highlight
instruction to every panel that exists under the active toolchain version,
irrespective of the visibility flags: each such panel's highlight becomes the
hovered line (so in particular every visible panel is highlighted), panels of
stages absent from the toolchain are untouched, and the visibility flags
themselves are unchanged. -/
theorem highlight_broadcast_targets (v : Bool) (line : Nat)
    (st : ViewerState) (k : StageKind) :
    (k ∈ compose v →
      ((on_hover_line v line st).panels.get k).highlight = some line) ∧
    (k ∉ compose v →
      (on_hover_line v line st).panels.get k = st.panels.get k) ∧
    vis_flags (on_hover_line v line st) = vis_flags st := by
  have hp := on_hover_panel v line st k
  have hc : hover_targets v = compose v := by cases v <;> rfl
  rw [hc] at hp
  refine ⟨fun hk => ?_, fun hk => ?_, vis_flags_on_hover v line st⟩
  · rw [hp, if_pos hk]
    rfl
  · rw [hp, if_neg hk]

/-- C1, witness for the amended theorem, under the reduced toolchain: hovering
line 3 from the startup state highlights the Tokens panel and leaves the
(nonexistent) OptimizedAST panel untouched. -/
theorem highlight_broadcast_targets_witness :
    ((on_hover_line false 3 pre_mount_state).panels.get .tokens).highlight =
      some 3 ∧
    (on_hover_line false 3 pre_mount_state).panels.get .optAst =
      pre_mount_state.panels.get .optAst :=
  ⟨(highlight_broadcast_targets false 3 pre_mount_state .tokens).1 (by decide),
   (highlight_broadcast_targets false 3 pre_mount_state .optAst).2.1
     (by decide)⟩

/-- C2: the highlight broadcast is idempotent — running `on_hover_line` twice
with the same line, from any state and under either toolchain version, yields
exactly the state produced by running it once. -/
theorem on_hover_line_idempotent (v : Bool) (l : Nat) (st : ViewerState) :
    on_hover_line v l (on_hover_line v l st) = on_hover_line v l st := by
  cases v <;> simp [on_hover_line, widget_highlight, Panels.set, Panels.get]

/-- C3: for every combination of the seven visibility flags,
`update_visibility` (run by every visibility watcher) sets the grid column
count to min(number of visible stages, 3); it leaves the flags (hence the
visible count) unchanged and the column count never exceeds three. -/
theorem panel_columns_min_three (st : ViewerState) :
    (update_visibility st).grid_size_columns = min (visible_count st) 3 ∧
    visible_count (update_visibility st) = visible_count st ∧
    (update_visibility st).grid_size_columns ≤ 3 := by
  obtain ⟨s1, s2, s3, s4, s5, s6, s7, g, e, c, p⟩ := st
  refine ⟨?_, rfl, ?_⟩
  · cases s1 <;> cases s2 <;> cases s3 <;> cases s4 <;> cases s5 <;>
      cases s6 <;> cases s7 <;> rfl
  · exact Nat.min_le_right _ 3

/-- C4: under the reduced toolchain, pressing key 4, 5 or 6 (the toggles of
OptimizedAST, PseudoBytecode, OptimizedPseudoBytecode) is bound to no action,
so the whole state — in particular every visibility flag and the visible
count — is unchanged. -/
theorem reduced_toggle_noop (firstFail : String → Option StageKind)
    (k : String) (st : ViewerState)
    (h : k = "4" ∨ k = "5" ∨ k = "6") :
    step false firstFail (Event.key k) st = st ∧
    visible_count (step false firstFail (Event.key k) st) =
      visible_count st := by
  have hs : step false firstFail (Event.key k) st = st := by
    rcases h with h | h | h <;> subst h <;> rfl
  exact ⟨hs, by rw [hs]⟩

/-- C4, witness: pressing key 4 under the reduced toolchain from the startup
state leaves the state unchanged. -/
theorem reduced_toggle_noop_witness :
    step false demoFail (Event.key "4") pre_mount_state = pre_mount_state :=
  (reduced_toggle_noop demoFail "4" pre_mount_state (Or.inl rfl)).1

/-- C5: when the new source compiles through every stage, a single `set_code`
call leaves every panel that exists under the active toolchain version with an
artifact computed from the new text (the same revision for all stages, not
stale) and with its highlight cleared. -/
theorem set_code_success_atomic (v : Bool)
    (firstFail : String → Option StageKind) (code : String)
    (st : ViewerState) (h : firstFail code = none) (k : StageKind)
    (hk : k ∈ compose v) :
    (set_code v firstFail code st).panels.get k =
      { content := code, stale := false, highlight := none } := by
  have hp := set_code_panel v firstFail code st k
  have hc : set_code_targets v = compose v := by cases v <;> rfl
  rw [hc] at hp
  rw [hp, if_pos hk]
  simp [widget_set_code, stage_succeeds, h]

/-- C5, witness: loading the compiling text "good" over the startup state
under the full toolchain gives the AST panel the new artifact with no
highlight. -/
theorem set_code_success_atomic_witness :
    (set_code true demoFail "good" pre_mount_state).panels.get .ast =
      { content := "good", stale := false, highlight := none } :=
  set_code_success_atomic true demoFail "good" pre_mount_state (by decide)
    .ast (by decide)

/-- C6: when the new source first fails at stage `f`, `set_code` under the
full toolchain refreshes every stage strictly before `f` in the pipeline
order to the new text, while `f` itself and every later stage keep their
previous artifact and highlight and are marked stale. -/
theorem set_code_failure_containment
    (firstFail : String → Option StageKind) (code : String)
    (st : ViewerState) (f : StageKind) (k : StageKind)
    (h : firstFail code = some f) :
    (k.idx < f.idx →
      (set_code true firstFail code st).panels.get k =
        { content := code, stale := false, highlight := none }) ∧
    (f.idx ≤ k.idx →
      (set_code true firstFail code st).panels.get k =
        { st.panels.get k with stale := true }) := by
  have hp := set_code_panel true firstFail code st k
  have hk : k ∈ set_code_targets true := by cases k <;> decide
  rw [hp, if_pos hk]
  unfold widget_set_code stage_succeeds
  rw [h]
  constructor
  · intro hlt
    rw [if_pos (by simpa using hlt)]
  · intro hge
    rw [if_neg (by simpa using Nat.not_lt.mpr hge)]

/-- C6, witness: loading the text "bad" (which fails at the AST stage) over a
state whose artifacts come from the text "ok" refreshes the Tokens panel to
"bad" while the PseudoBytecode panel keeps its old artifact and turns
stale. -/
theorem set_code_failure_containment_witness :
    (set_code true demoFail "bad" (init_state true demoFail "ok")).panels.get
        .tokens = { content := "bad", stale := false, highlight := none } ∧
    (set_code true demoFail "bad" (init_state true demoFail "ok")).panels.get
        .pseudoBc =
      { (init_state true demoFail "ok").panels.get .pseudoBc with
        stale := true } :=
  ⟨(set_code_failure_containment demoFail "bad" (init_state true demoFail "ok")
      .ast .tokens (by decide)).1 (by decide),
   (set_code_failure_containment demoFail "bad" (init_state true demoFail "ok")
      .ast .pseudoBc (by decide)).2 (by decide)⟩

/-- C7: at startup exactly Source and FinalBytecode are visible and the five
other stages are hidden, and every event that is not a key press bound to a
toggle action leaves all seven visibility flags unchanged. -/
theorem visibility_init_and_toggle_only (v : Bool)
    (firstFail : String → Option StageKind) (startup : String) (e : Event)
    (st : ViewerState) (h : is_toggle_event v e = false) :
    vis_flags (init_state v firstFail startup) =
      [true, false, false, false, false, false, true] ∧
    vis_flags (step v firstFail e st) = vis_flags st := by
  refine ⟨rfl, ?_⟩
  cases e with
  | key k =>
    simp only [is_toggle_event] at h
    rcases hk : key_action v k with _ | a
    · simp only [step, hk]
    · rw [hk] at h
      simp only [step, hk]
      exact run_action_nontoggle v a st h
  | hover line => exact vis_flags_on_hover v line st
  | editorResult r =>
    cases r with
    | none => rfl
    | some c => exact vis_flags_set_code v firstFail c st

/-- C7, witness: a hover event (not a toggle) from the startup state, under
the full toolchain, leaves the visibility flags unchanged. -/
theorem visibility_init_and_toggle_only_witness :
    vis_flags (init_state true demoFail "") =
      [true, false, false, false, false, false, true] ∧
    vis_flags (step true demoFail (Event.hover 3) pre_mount_state) =
      vis_flags pre_mount_state :=
  visibility_init_and_toggle_only true demoFail "" (Event.hover 3)
    pre_mount_state (by decide)

/-- C8: dismissing the editor overlay with no change invokes nothing — the
state (source, every artifact, everything) is exactly as before — while
dismissing it with an updated string invokes `set_code` with exactly that
string (the call is recorded with that argument). -/
theorem editor_dismissal_effect (v : Bool)
    (firstFail : String → Option StageKind) (st : ViewerState) (c : String) :
    update_code v firstFail none st = st ∧
    update_code v firstFail (some c) st = set_code v firstFail c st ∧
    (update_code v firstFail (some c) st).set_code_calls =
      c :: st.set_code_calls := by
  exact ⟨rfl, rfl, rfl⟩

/-- C9: stage availability is a pure function of the toolchain-version flag,
fixed at startup: the full toolchain composes all seven panels, the reduced
one exactly lacks OptimizedAST, PseudoBytecode and OptimizedPseudoBytecode;
the reduced key map binds no action to keys 4, 5, 6; and both the highlight
broadcast and the recomputation sequence touch exactly the composed panels. -/
theorem available_stages_fixed (v : Bool) :
    compose true = allStages ∧
    compose false = [.source, .tokens, .ast, .codeObj] ∧
    key_action false "4" = none ∧
    key_action false "5" = none ∧
    key_action false "6" = none ∧
    hover_targets v = compose v ∧
    set_code_targets v = compose v := by
  refine ⟨rfl, rfl, by decide, by decide, by decide, ?_, ?_⟩ <;>
    cases v <;> rfl

/-- C10: every `set_code` call pushes the new text into the editor screen,
and along every event sequence from startup the editor screen's text equals
the argument of the most recent `set_code` call — so an opened editor always
presents the pipeline's current source. -/
theorem editor_text_in_sync (v : Bool)
    (firstFail : String → Option StageKind) (startup : String)
    (evs : List Event) :
    (∀ code st, (set_code v firstFail code st).editor_text = code) ∧
    (run_events v firstFail startup evs).set_code_calls.head? =
      some (run_events v firstFail startup evs).editor_text := by
  refine ⟨fun code st => rfl, ?_⟩
  unfold run_events
  have hbase : (init_state v firstFail startup).set_code_calls.head? =
      some (init_state v firstFail startup).editor_text := rfl
  generalize init_state v firstFail startup = st0 at hbase ⊢
  induction evs generalizing st0 with
  | nil => exact hbase
  | cons e evs ih =>
    exact ih _ (step_preserves_sync v firstFail e st0 hbase)

end Codoscope
